import Mathlib

/-!
# Verification of the market-analyst core (day-03-market-analyst backend)

Shallow embedding of the stock analysis pipeline:
* `ai_analyzer.py` — RSI, MACD, Bollinger bands, support/resistance,
  technical analysis, and the recommendation engine;
* `news_fetcher.py` — keyword sentiment aggregation;
* `stock_data.py` — cached historical-data retrieval with fetch fallback;
* `database.py` — the `historical_data` upsert keyed by `(symbol, date)`.

Prices and scores are embedded as rationals (`ℚ`); Python floats carry the
special values `inf`/`NaN` only on the RSI division path, and those paths are
embedded as the explicit branches the source reaches (`gain/0 = inf` makes
`rsi = 100`; `0/0 = NaN` trips the `isna` fallback to `50`).
-/

namespace MarketAnalyst

/-! ## RSI — `StockAIAnalyzer._calculate_rsi` (ai_analyzer.py lines 122-137)

`prices.diff()` produces a leading `NaN` which `delta.where(delta > 0, 0)`
replaces by `0`; the final `rolling(period).mean()` window therefore covers
exactly the last 14 true adjacent differences whenever `len(prices) ≥ 15`. -/

/-- Adjacent differences `prices[i+1] - prices[i]`, the non-`NaN` part of
`prices.diff()`. -/
def diffs (prices : List ℚ) : List ℚ :=
  List.zipWith (fun a b => b - a) prices prices.tail

/-- The last `n` entries of a list (`rolling(n)`'s final window). -/
def lastN (n : Nat) (l : List ℚ) : List ℚ :=
  l.drop (l.length - n)

/-- Positive parts of the last 14 differences: `delta.where(delta > 0, 0)`
restricted to the final rolling window. -/
def gains14 (prices : List ℚ) : List ℚ :=
  (lastN 14 (diffs prices)).map (fun d => if 0 < d then d else 0)

/-- Negated negative parts of the last 14 differences:
`-delta.where(delta < 0, 0)` restricted to the final rolling window. -/
def losses14 (prices : List ℚ) : List ℚ :=
  (lastN 14 (diffs prices)).map (fun d => if d < 0 then -d else 0)

/-- `gain.rolling(14).mean().iloc[-1]`. -/
def avgGain (prices : List ℚ) : ℚ := (gains14 prices).sum / 14

/-- `loss.rolling(14).mean().iloc[-1]`. -/
def avgLoss (prices : List ℚ) : ℚ := (losses14 prices).sum / 14

/-- `StockAIAnalyzer._calculate_rsi` with the default `period = 14`.

Fewer than 15 bars returns the neutral `50.0`.  Otherwise
`rs = gain/loss` and `rsi = 100 - 100/(1 + rs)` in floats:
* `avgLoss = 0, avgGain = 0` gives `rs = NaN`, so `pd.isna` returns `50.0`;
* `avgLoss = 0, avgGain > 0` gives `rs = inf`, so `rsi = 100.0`;
* otherwise the arithmetic is exact and stays in `ℚ`. -/
def calculate_rsi (prices : List ℚ) : ℚ :=
  if prices.length < 15 then 50
  else if avgLoss prices = 0 then
    (if avgGain prices = 0 then 50 else 100)
  else 100 - 100 / (1 + avgGain prices / avgLoss prices)

/-! ## Recommendation engine — `StockAIAnalyzer._generate_recommendation`
(ai_analyzer.py lines 359-445)

The `technical` argument contributes RSI/MACD deltas only when the
`'indicators'` key is present; `Option TechIn` embeds that check.  `trend`,
`sentiment` and `risk` enter only through the string equality tests the
source performs, so they are embedded as the looked-up strings. -/

/-- The values `_generate_recommendation` reads from
`technical['indicators']`. -/
structure TechIn where
  rsi : ℚ
  macd : ℚ
  macd_signal : ℚ
deriving DecidableEq, Repr

/-- The dict returned on the happy path of `_generate_recommendation`. -/
structure Recommendation where
  recommendation : String
  action : String
  confidence : ℚ
  score : Int
  factors : List String
  reasoning : String
deriving DecidableEq, Repr

/-- The dict returned by the `except` handler of `_generate_recommendation`
(ai_analyzer.py lines 439-445). -/
structure FallbackRec where
  recommendation : String
  action : String
  confidence : ℚ
  error : String
deriving DecidableEq, Repr

/-- RSI scoring block: `score ± 2` with its factor string. -/
def rsiFactors (rsi : ℚ) : Int × List String :=
  if rsi < 30 then (2, ["RSI oversold (bullish)"])
  else if 70 < rsi then (-2, ["RSI overbought (bearish)"])
  else (0, [])

/-- MACD scoring block: `score ± 1` with its factor string. -/
def macdFactors (macd macd_signal : ℚ) : Int × List String :=
  if macd_signal < macd then (1, ["MACD bullish crossover"])
  else (-1, ["MACD bearish crossover"])

/-- Both technical blocks, guarded by `'indicators' in technical`. -/
def techFactors : Option TechIn → Int × List String
  | none => (0, [])
  | some t =>
    ((rsiFactors t.rsi).1 + (macdFactors t.macd t.macd_signal).1,
     (rsiFactors t.rsi).2 ++ (macdFactors t.macd t.macd_signal).2)

/-- Trend scoring block: `trend.get('trend') == 'bullish'` etcetera. -/
def trendFactors (trend : String) : Int × List String :=
  if trend = "bullish" then (2, ["Strong bullish trend"])
  else if trend = "bearish" then (-2, ["Strong bearish trend"])
  else (0, [])

/-- News sentiment scoring block. -/
def sentimentFactors (sentiment : String) : Int × List String :=
  if sentiment = "positive" then (1, ["Positive news sentiment"])
  else if sentiment = "negative" then (-1, ["Negative news sentiment"])
  else (0, [])

/-- Risk scoring block. -/
def riskFactors (risk : String) : Int × List String :=
  if risk = "high" then (-1, ["High volatility risk"])
  else (0, [])

/-- The accumulated `score` variable at the end of the scoring section. -/
def totalScore (tech : Option TechIn) (trend sentiment risk : String) : Int :=
  (techFactors tech).1 + (trendFactors trend).1 +
    (sentimentFactors sentiment).1 + (riskFactors risk).1

/-- The accumulated `factors` list, in the source's append order. -/
def allFactors (tech : Option TechIn) (trend sentiment risk : String) :
    List String :=
  (techFactors tech).2 ++ (trendFactors trend).2 ++
    (sentimentFactors sentiment).2 ++ (riskFactors risk).2

/-- Python's `round(x, 1)`.  Mathlib's `round` is round-half-up and Python's
is round-half-even, but every confidence value the engine produces is either
an exact multiple of `1/10` or a multiple of `100/3`, none of which sits on a
half-way tie, so the two agree on all reachable inputs. -/
def round1 (q : ℚ) : ℚ := ((round (q * 10) : ℤ) : ℚ) / 10

/-- The tier `if`-chain: recommendation tier, action and (unrounded)
confidence from the total score. -/
def tierOf (score : Int) : String × String × ℚ :=
  if 3 ≤ score then ("strong_buy", "BUY", min ((score : ℚ) / 5 * 100) 95)
  else if 1 ≤ score then ("buy", "BUY", min ((score : ℚ) / 3 * 100) 80)
  else if score ≤ -3 then
    ("strong_sell", "SELL", min (((|score| : ℤ) : ℚ) / 5 * 100) 95)
  else if score ≤ -1 then
    ("sell", "SELL", min (((|score| : ℤ) : ℚ) / 3 * 100) 80)
  else ("hold", "HOLD", 60)

/-- `StockAIAnalyzer._generate_reasoning` (ai_analyzer.py lines 447-463). -/
def generate_reasoning (recommendation : String) (factors : List String) :
    String :=
  let base :=
    if recommendation = "strong_buy" then
      "Strong technical indicators and positive sentiment suggest this is an excellent buying opportunity."
    else if recommendation = "buy" then
      "Multiple positive indicators suggest this stock has good upward potential."
    else if recommendation = "hold" then
      "Mixed signals suggest maintaining current position and monitoring closely."
    else if recommendation = "sell" then
      "Several negative indicators suggest it may be time to consider selling."
    else if recommendation = "strong_sell" then
      "Strong negative indicators suggest immediate selling may be prudent."
    else "Analysis is inconclusive."
  if factors = [] then base
  else base ++ " Key factors include: " ++ String.intercalate ", " (factors.take 3)

set_option linter.unusedVariables false in
/-- The `try` body of `StockAIAnalyzer._generate_recommendation`.  The
`volume` argument is received but never read by the source, and is kept to
show that.  `sentiment` stands for `news.get('overall_sentiment', 'neutral')`
and `risk` for `risk.get('risk_level', 'medium')`. -/
def generate_recommendation (tech : Option TechIn)
    (trend volume risk sentiment : String) : Recommendation :=
  let s := totalScore tech trend sentiment risk
  let fs := allFactors tech trend sentiment risk
  let t := tierOf s
  { recommendation := t.1
    action := t.2.1
    confidence := round1 t.2.2
    score := s
    factors := fs
    reasoning := generate_reasoning t.1 fs }

/-- The `except` handler of `_generate_recommendation` (lines 439-445):
`{'recommendation': 'hold', 'action': 'HOLD', 'confidence': 50,
'error': str(e)}`. -/
def recommendationFallback (e : String) : FallbackRec :=
  { recommendation := "hold", action := "HOLD", confidence := 50, error := e }

/-- The `try`/`except` wrapper of `_generate_recommendation`: a body outcome
(normal return or raised exception message) is always converted into a
returned value — the caller never sees an exception. -/
def generateRecommendationResult (body : Except String Recommendation) :
    Recommendation ⊕ FallbackRec :=
  match body with
  | .ok r => .inl r
  | .error e => .inr (recommendationFallback e)

/-! ### Spec-side definitions for the refinement claims (§4.5 of the spec) -/

/-- Spec-side: the sum of the signed deltas of the §4.5 table rows whose
conditions hold, written from the spec's table, to be compared with
`generate_recommendation`. -/
def specTableScore (rsi macd macd_signal : ℚ) (trend sentiment risk : String) :
    Int :=
  (if rsi < 30 then 2 else 0) + (if 70 < rsi then -2 else 0) +
    (if macd_signal < macd then 1 else -1) +
    (if trend = "bullish" then 2 else 0) +
    (if trend = "bearish" then -2 else 0) +
    (if sentiment = "positive" then 1 else 0) +
    (if sentiment = "negative" then -1 else 0) +
    (if risk = "high" then -1 else 0)

/-- Spec-side: the §4.5 table delta of a factor string (0 for a string not in
the table). -/
def factorDelta (f : String) : Int :=
  if f = "RSI oversold (bullish)" then 2
  else if f = "RSI overbought (bearish)" then -2
  else if f = "MACD bullish crossover" then 1
  else if f = "MACD bearish crossover" then -1
  else if f = "Strong bullish trend" then 2
  else if f = "Strong bearish trend" then -2
  else if f = "Positive news sentiment" then 1
  else if f = "Negative news sentiment" then -1
  else if f = "High volatility risk" then -1
  else 0

/-! ## Sentiment aggregation — `NewsStockFetcher.analyze_news_sentiment`
(news_fetcher.py lines 176-250)

The dict returned by the empty-article branch (lines 186-193) carries fewer
keys than the non-empty branch, so the keys only the non-empty branch writes
(`articles_analyzed`, `sentiment_score`) are embedded as `Option` fields.
The loop also writes `article['sentiment']` into each input dict; the
function is embedded as returning the pair (summary, post-state of the
article list). -/

/-- A news article dict as produced by `_parse_rss_feed`. -/
structure Article where
  title : String
  description : String
  link : String
  published_date : String
  source : String
  sentiment : String
deriving DecidableEq, Repr

/-- `positive_keywords` (news_fetcher.py lines 195-199). -/
def positive_keywords : List String :=
  ["profit", "growth", "increase", "rise", "gain", "bull", "up", "surge",
   "rally", "boost", "positive", "strong", "beat", "exceed", "outperform",
   "upgrade", "buy", "recommend", "bullish", "optimistic"]

/-- `negative_keywords` (news_fetcher.py lines 201-205). -/
def negative_keywords : List String :=
  ["loss", "decline", "fall", "drop", "bear", "down", "crash", "plunge",
   "negative", "weak", "miss", "underperform", "downgrade", "sell",
   "bearish", "pessimistic", "warning", "concern", "risk"]

/-- `f"{title} {description}".lower()`. -/
def articleText (a : Article) : String :=
  (a.title ++ " " ++ a.description).toLower

/-- Python's `needle in hay` on strings: contiguous-substring test. -/
def containsSub (needle : List Char) : List Char → Bool
  | [] => needle.isEmpty
  | c :: t => needle.isPrefixOf (c :: t) || containsSub needle t

/-- `sum(1 for keyword in kws if keyword in text)`: the number of keywords
occurring as a substring of `text`. -/
def keywordMatches (kws : List String) (text : String) : Nat :=
  (kws.filter (fun k => containsSub k.toList text.toList)).length

/-- Per-article count of positive keyword matches. -/
def positiveScore (a : Article) : Nat :=
  keywordMatches positive_keywords (articleText a)

/-- Per-article count of negative keyword matches. -/
def negativeScore (a : Article) : Nat :=
  keywordMatches negative_keywords (articleText a)

/-- Spec-side: the signed per-article keyword score
(#positive matches − #negative matches), whose sign the written sentiment
label is claimed to follow. -/
def keywordScore (a : Article) : Int :=
  (positiveScore a : Int) - (negativeScore a : Int)

/-- The per-article sentiment label written into `article['sentiment']`. -/
def articleLabel (a : Article) : String :=
  if negativeScore a < positiveScore a then "positive"
  else if positiveScore a < negativeScore a then "negative"
  else "neutral"

/-- The per-article signed score appended to `sentiment_scores`. -/
def articleScoreInt (a : Article) : Int :=
  if negativeScore a < positiveScore a then 1
  else if positiveScore a < negativeScore a then -1
  else 0

/-- The summary dict of `analyze_news_sentiment`; `articles_analyzed` and
`sentiment_score` are `none` exactly when the branch taken does not write the
key. -/
structure SentimentSummary where
  overall_sentiment : String
  positive_count : Nat
  negative_count : Nat
  neutral_count : Nat
  confidence : ℚ
  articles_analyzed : Option Nat
  sentiment_score : Option ℚ
deriving DecidableEq, Repr

/-- `NewsStockFetcher.analyze_news_sentiment`.  Returns the summary together
with the post-state of the mutated input list. -/
def analyze_news_sentiment (articles : List Article) :
    SentimentSummary × List Article :=
  if articles = [] then
    ({ overall_sentiment := "neutral"
       positive_count := 0
       negative_count := 0
       neutral_count := 0
       confidence := 0
       articles_analyzed := none
       sentiment_score := none }, articles)
  else
    let scores := articles.map articleScoreInt
    let avg : ℚ := (scores.sum : ℚ) / (scores.length : ℚ)
    let overall :=
      if 1 / 10 < avg then "positive"
      else if avg < -(1 / 10) then "negative"
      else "neutral"
    let pos := (scores.filter (fun s => 0 < s)).length
    let neg := (scores.filter (fun s => s < 0)).length
    ({ overall_sentiment := overall
       positive_count := pos
       negative_count := neg
       neutral_count := scores.length - pos - neg
       confidence := |avg|
       articles_analyzed := some articles.length
       sentiment_score := some ((avg + 1) * 5) },
     articles.map (fun a => { a with sentiment := articleLabel a }))

/-- The literal dict `get_stock_news_sentiment` returns when `get_stock_news`
found no articles (news_fetcher.py lines 258-268) — the only place a default
`sentiment_score` of `5.0` is produced. -/
structure NoNewsResponse where
  success : Bool
  message : String
  overall_sentiment : String
  sentiment_score : ℚ
  positive_count : Nat
  negative_count : Nat
  neutral_count : Nat
deriving DecidableEq, Repr

/-- `get_stock_news_sentiment`'s empty-articles response. -/
def noNewsResponse (symbol : String) : NoNewsResponse :=
  { success := false
    message := "No news found for " ++ symbol
    overall_sentiment := "neutral"
    sentiment_score := 5
    positive_count := 0
    negative_count := 0
    neutral_count := 0 }

/-! ## Historical-data retrieval — `StockDataFetcher.get_historical_data`
(stock_data.py lines 198-246)

The collaborators are embedded as values: `cache` is every stored
`historical_data` row for the symbol (dates as day numbers relative to
today), and both the cache check and the `except` fallback run the
date-windowed query `self.db.get_historical_data(symbol, days)`
(database.py lines 324-366), which keeps only the rows with
`date >= now - days` — `windowed_db_query cache cutoff` with
`cutoff = -days`.  The database does not change between the two queries.
`lastDateAgeDays` is `(datetime.now() - last_date).days` when
`get_last_historical_date` returned a date, and `fetchResult` is the outcome
of the API fetch (`.error` when it raised).  The returned flag records
whether the fetch source was invoked. -/

/-- One row of the `historical_data` table: OHLCV for one date. -/
structure HistRow where
  open_price : ℚ
  high : ℚ
  low : ℚ
  close_price : ℚ
  volume : Int
deriving DecidableEq, Repr

/-- `StockDatabase.get_historical_data(symbol, days)` (database.py lines
324-366): the symbol's stored rows restricted to the lookback window
`date >= now - days`, in date order.  `cutoff` is the window start day;
rows dated before it are dropped even though they remain in the cache. -/
def windowed_db_query (cache : List (Int × HistRow)) (cutoff : Int) :
    List (Int × HistRow) :=
  cache.filter (fun dr => decide (cutoff ≤ dr.1))

/-- `last_date and (datetime.now() - last_date).days < 1`: a last historical
date exists and is less than one day old. -/
def isFreshAge : Option Int → Bool
  | some d => decide (d < 1)
  | none => false

/-- `get_historical_data`: cache-first retrieval with fetch fallback.  The
windowed query appears three times because the source runs it in the
`try` block and again in the `except` fallback. -/
def get_historical_data (force_fetch : Bool) (cache : List (Int × HistRow))
    (cutoff : Int) (lastDateAgeDays : Option Int)
    (fetchResult : Except String (List (Int × HistRow))) :
    Except String (List (Int × HistRow) × Bool) :=
  if force_fetch = false ∧ windowed_db_query cache cutoff ≠ [] ∧
      isFreshAge lastDateAgeDays = true then
    .ok (windowed_db_query cache cutoff, false)
  else
    match fetchResult with
    | .ok df => .ok (df, true)
    | .error e =>
      if windowed_db_query cache cutoff ≠ [] then
        .ok (windowed_db_query cache cutoff, true)
      else .error ("No historical data available: " ++ e)

/-! ## Historical-data cache upsert — `StockDatabase.store_historical_data`
(database.py lines 191-230) over the `historical_data` table with
`UNIQUE(symbol, date)` (lines 66-79)

The table is embedded as an association list keyed by `(symbol, date)`;
`INSERT OR REPLACE` deletes any row with the conflicting key and appends the
new row.  Dates are embedded as integers (calendar days). -/

/-- The `historical_data` table contents (ignoring the autoincrement id). -/
abbrev HistTable := List ((String × Int) × HistRow)

/-- One `INSERT OR REPLACE` statement: drop any row with the same
`(symbol, date)` key, then insert the new row. -/
def upsertRow (t : HistTable) (k : String × Int) (r : HistRow) : HistTable :=
  t.filter (fun p => decide (p.1 ≠ k)) ++ [(k, r)]

/-- `store_historical_data`: upsert every `(date, row)` of the DataFrame in
order, for one symbol. -/
def store_historical_data (t : HistTable) (symbol : String)
    (df : List (Int × HistRow)) : HistTable :=
  df.foldl (fun acc dr => upsertRow acc (symbol, dr.1) dr.2) t

/-- Any sequence of `store_historical_data` calls applied to the freshly
created (empty) table. -/
def storeAll (ops : List (String × List (Int × HistRow))) : HistTable :=
  ops.foldl (fun t op => store_historical_data t op.1 op.2) []

/-! ## Technical analysis — `StockAIAnalyzer._technical_analysis`
(ai_analyzer.py lines 84-120) with its helpers (lines 139-262)

`pandas` float `NaN` reaches the embedding in one place: for a non-empty
series shorter than 5 bars, `highs.max()`/`lows.min()` are `NaN`, so the
support/resistance slots are `Option ℚ` with `none` for `NaN`.  The rolling
standard deviation leaves `ℚ`, so the square root is abstracted as the
`sqrtFn` parameter; no claim below depends on its values.  On an empty
series the first raising operation in the source is the column access /
`iloc[-1]` last-price lookup; the embedding surfaces that as the
`Except.error` of the Bollinger step, and the outer handler converts any
such error into the returned `{'error': ...}` dict (`TechResult.err`). -/

/-- One OHLC bar as `_technical_analysis` reads it. -/
structure PriceBar where
  high : ℚ
  low : ℚ
  close : ℚ
deriving DecidableEq, Repr

/-- `df['Close']` as a list. -/
def closesOf (df : List PriceBar) : List ℚ := df.map (fun b => b.close)

/-- `rolling(n).mean().iloc[-1]`: the mean of the last `n` closes. -/
def smaLast (n : Nat) (closes : List ℚ) : ℚ := (lastN n closes).sum / n

/-- `Series.ewm(span).mean()` with the pandas default `adjust=True`:
entry `t` is `Σ_i (1-a)^i x[t-i] / Σ_i (1-a)^i`, computed by the numerator /
denominator recurrences. -/
def ewmMean (a : ℚ) (xs : List ℚ) : List ℚ :=
  (xs.foldl
    (fun (st : ℚ × ℚ × List ℚ) x =>
      let num := x + (1 - a) * st.1
      let den := 1 + (1 - a) * st.2.1
      (num, den, st.2.2 ++ [num / den]))
    ((0 : ℚ), (0 : ℚ), ([] : List ℚ))).2.2

/-- `StockAIAnalyzer._calculate_macd` (ai_analyzer.py lines 139-157):
`EMA(12) - EMA(26)`, signal `EMA(9)` of that, histogram their difference;
all `0` below 26 bars. -/
def calculate_macd (closes : List ℚ) : ℚ × ℚ × ℚ :=
  if closes.length < 26 then (0, 0, 0)
  else
    let e12 := ewmMean (2 / 13) closes
    let e26 := ewmMean (2 / 27) closes
    let macd := List.zipWith (fun a b => a - b) e12 e26
    let signal := ewmMean (2 / 10) macd
    let m := macd.getLast?.getD 0
    let s := signal.getLast?.getD 0
    (m, s, m - s)

/-- The `IndexError` message of `prices.iloc[-1]` on an empty series. -/
def indexErrMsg : String := "single positional indexer is out-of-bounds"

/-- `StockAIAnalyzer._calculate_bollinger_bands` (ai_analyzer.py lines
159-187).  On an empty series both the `try` body and the `except` handler
evaluate `prices.iloc[-1]`, so the `IndexError` escapes — `.error` here.
`sqrtFn` stands for the square root inside `rolling(20).std()` (sample
standard deviation, divisor 19). -/
def calculate_bollinger_bands (sqrtFn : ℚ → ℚ) (closes : List ℚ) :
    Except String (ℚ × ℚ × ℚ) :=
  match closes.getLast? with
  | none => .error indexErrMsg
  | some last =>
    if closes.length < 20 then
      .ok (last * (102 / 100), last, last * (98 / 100))
    else
      let w := lastN 20 closes
      let sma := w.sum / 20
      let std := sqrtFn ((w.map (fun x => (x - sma) ^ 2)).sum / 19)
      .ok (sma + std * 2, sma, sma - std * 2)

/-- Maximum of a list (used only on non-empty lists, default 0). -/
def maxD : List ℚ → ℚ
  | [] => 0
  | h :: t => t.foldl max h

/-- Minimum of a list (used only on non-empty lists, default 0). -/
def minD : List ℚ → ℚ
  | [] => 0
  | h :: t => t.foldl min h

/-- `StockAIAnalyzer._find_support_resistance` (ai_analyzer.py lines
189-207).  Empty frame: the `else` of `if not highs.empty` and the `except`
handler both index an empty column, so the `IndexError` escapes.  Fewer than
5 bars: every `rolling(5)` window is incomplete, `highs.max()`/`lows.min()`
are `NaN` (`none`).  Otherwise the max of the 5-bar rolling highs is the max
of all highs (every bar lies in some complete window), and dually for
lows. -/
def find_support_resistance (df : List PriceBar) :
    Except String (Option ℚ × Option ℚ) :=
  match df with
  | [] => .error indexErrMsg
  | _ =>
    if df.length < 5 then .ok (none, none)
    else .ok (some (maxD (df.map (fun b => b.high))),
              some (minD (df.map (fun b => b.low))))

/-- The `indicators` dict assembled by `_technical_analysis`;
`resistance_level`/`support_level` are `none` when the float is `NaN`. -/
structure Indicators where
  sma_5 : ℚ
  sma_10 : ℚ
  sma_20 : ℚ
  rsi : ℚ
  macd : ℚ
  macd_signal : ℚ
  macd_histogram : ℚ
  bb_upper : ℚ
  bb_middle : ℚ
  bb_lower : ℚ
  resistance_level : Option ℚ
  support_level : Option ℚ
deriving DecidableEq, Repr

/-- `StockAIAnalyzer._analyze_price_position` output (lines 209-233). -/
structure PricePosition where
  ma_position : String
  ma_signal : String
  bb_position : String
deriving DecidableEq, Repr

/-- `_analyze_price_position` (ai_analyzer.py lines 209-233). -/
def analyze_price_position (current_price sma20 bb_upper bb_lower : ℚ) :
    PricePosition :=
  { ma_position := if sma20 < current_price then "above" else "below"
    ma_signal := if sma20 < current_price then "bullish" else "bearish"
    bb_position :=
      if bb_upper < current_price then "overbought"
      else if current_price < bb_lower then "oversold"
      else "normal" }

/-- `_generate_technical_signals` (ai_analyzer.py lines 235-262). -/
def generate_technical_signals (rsi macd macd_signal sma5 sma20 : ℚ) :
    List String :=
  (if 70 < rsi then ["RSI indicates overbought condition"]
   else if rsi < 30 then ["RSI indicates oversold condition"] else []) ++
  (if macd_signal < macd then ["MACD shows bullish momentum"]
   else ["MACD shows bearish momentum"]) ++
  (if sma20 < sma5 then ["Short-term MA above long-term MA (bullish)"]
   else ["Short-term MA below long-term MA (bearish)"])

/-- The dict `_technical_analysis` returns on its happy path. -/
structure TechAnalysis where
  indicators : Indicators
  price_analysis : PricePosition
  signals : List String
deriving DecidableEq, Repr

/-- The result of `_technical_analysis`: either the analysis dict or the
`{'error': ...}` dict its `except` handler returns. -/
inductive TechResult where
  | ok (t : TechAnalysis)
  | err (msg : String)
deriving DecidableEq, Repr

/-- Whether a `TechResult` is the `{'error': ...}` dict. -/
def TechResult.isErr : TechResult → Bool
  | .ok _ => false
  | .err _ => true

/-- `StockAIAnalyzer._technical_analysis` (ai_analyzer.py lines 84-120). -/
def technical_analysis (sqrtFn : ℚ → ℚ) (df : List PriceBar)
    (current_price : ℚ) : TechResult :=
  let closes := closesOf df
  let body : Except String TechAnalysis := do
    let sma5 := if 5 ≤ df.length then smaLast 5 closes else current_price
    let sma10 := if 10 ≤ df.length then smaLast 10 closes else current_price
    let sma20 := if 20 ≤ df.length then smaLast 20 closes else current_price
    let rsi := calculate_rsi closes
    let m := calculate_macd closes
    let bb ← calculate_bollinger_bands sqrtFn closes
    let sr ← find_support_resistance df
    let ind : Indicators :=
      { sma_5 := sma5, sma_10 := sma10, sma_20 := sma20
        rsi := rsi
        macd := m.1, macd_signal := m.2.1, macd_histogram := m.2.2
        bb_upper := bb.1, bb_middle := bb.2.1, bb_lower := bb.2.2
        resistance_level := sr.1, support_level := sr.2 }
    pure
      { indicators := ind
        price_analysis := analyze_price_position current_price sma20 bb.1 bb.2.2
        signals := generate_technical_signals rsi m.1 m.2.1 sma5 sma20 }
  match body with
  | .ok t => .ok t
  | .error e => .err ("Technical analysis error: " ++ e)

/-! ### Concrete test vectors used by witnesses and counterexamples -/

/-- Fifteen strictly increasing closes: 14 positive differences, zero
average loss. -/
def incPrices15 : List ℚ :=
  [1, 2, 3, 4, 5, 6, 7, 8, 9, 10, 11, 12, 13, 14, 15]

/-- One concrete OHLCV row. -/
def sampleRow : HistRow :=
  { open_price := 1, high := 2, low := 1, close_price := 2, volume := 10 }

/-! ## Theorems -/

/-- The RSI block contributes the two RSI rows of the §4.5 table, and its
factor strings map back to its delta. -/
theorem rsiFactors_delta (rsi : ℚ) :
    (rsiFactors rsi).1
        = (if rsi < 30 then 2 else 0) + (if 70 < rsi then -2 else 0) ∧
      ((rsiFactors rsi).2.map factorDelta).sum = (rsiFactors rsi).1 := by
  unfold rsiFactors
  split_ifs with h1 h2 <;> simp_all [factorDelta]
  all_goals linarith

/-- The MACD block contributes the two MACD rows of the §4.5 table. -/
theorem macdFactors_delta (macd macd_signal : ℚ) :
    (macdFactors macd macd_signal).1 = (if macd_signal < macd then 1 else -1) ∧
      ((macdFactors macd macd_signal).2.map factorDelta).sum
        = (macdFactors macd macd_signal).1 := by
  unfold macdFactors
  split_ifs <;> simp [factorDelta]

/-- The trend block contributes the two trend rows of the §4.5 table. -/
theorem trendFactors_delta (trend : String) :
    (trendFactors trend).1
        = (if trend = "bullish" then 2 else 0)
            + (if trend = "bearish" then -2 else 0) ∧
      ((trendFactors trend).2.map factorDelta).sum = (trendFactors trend).1 := by
  unfold trendFactors
  split_ifs <;> simp_all [factorDelta]

/-- The sentiment block contributes the two sentiment rows of the table. -/
theorem sentimentFactors_delta (sentiment : String) :
    (sentimentFactors sentiment).1
        = (if sentiment = "positive" then 1 else 0)
            + (if sentiment = "negative" then -1 else 0) ∧
      ((sentimentFactors sentiment).2.map factorDelta).sum
        = (sentimentFactors sentiment).1 := by
  unfold sentimentFactors
  split_ifs <;> simp_all [factorDelta]

/-- The risk block contributes the high-risk row of the §4.5 table. -/
theorem riskFactors_delta (risk : String) :
    (riskFactors risk).1 = (if risk = "high" then -1 else 0) ∧
      ((riskFactors risk).2.map factorDelta).sum = (riskFactors risk).1 := by
  unfold riskFactors
  split_ifs <;> simp [factorDelta]

/-- C1: for every combination of technical-indicator, trend, volume, risk and
news-sentiment inputs, the recommendation's `score` equals the arithmetic sum
of the signed deltas of the §4.5 table rows whose conditions hold, with no
other adjustment, and mapping each returned factor string back to its table
delta and summing reproduces the same total. -/
theorem score_is_table_sum (ti : TechIn) (trend volume risk sentiment : String) :
    (generate_recommendation (some ti) trend volume risk sentiment).score
        = specTableScore ti.rsi ti.macd ti.macd_signal trend sentiment risk ∧
      ((generate_recommendation (some ti) trend volume risk sentiment).factors.map
          factorDelta).sum
        = (generate_recommendation (some ti) trend volume risk sentiment).score := by
  constructor
  · show totalScore (some ti) trend sentiment risk
      = specTableScore ti.rsi ti.macd ti.macd_signal trend sentiment risk
    rw [totalScore, techFactors, specTableScore,
      (rsiFactors_delta ti.rsi).1, (macdFactors_delta ti.macd ti.macd_signal).1,
      (trendFactors_delta trend).1, (sentimentFactors_delta sentiment).1,
      (riskFactors_delta risk).1]
    ring
  · show ((allFactors (some ti) trend sentiment risk).map factorDelta).sum
      = totalScore (some ti) trend sentiment risk
    rw [allFactors, totalScore, techFactors]
    simp only [List.map_append, List.sum_append]
    rw [(rsiFactors_delta ti.rsi).2, (macdFactors_delta ti.macd ti.macd_signal).2,
      (trendFactors_delta trend).2, (sentimentFactors_delta sentiment).2,
      (riskFactors_delta risk).2]

/-- C2 (amended): tier, action and confidence are determined from the total
score exactly as the claim states, except that the stored confidence is the
source's `round(confidence, 1)` — rounded to one decimal — rather than the
raw `min` expression. -/
theorem tier_action_confidence (tech : Option TechIn)
    (trend volume risk sentiment : String) (r : Recommendation)
    (hr : r = generate_recommendation tech trend volume risk sentiment) :
    (3 ≤ r.score → r.recommendation = "strong_buy" ∧ r.action = "BUY" ∧
      r.confidence = round1 (min ((r.score : ℚ) / 5 * 100) 95)) ∧
    (1 ≤ r.score → r.score < 3 → r.recommendation = "buy" ∧ r.action = "BUY" ∧
      r.confidence = round1 (min ((r.score : ℚ) / 3 * 100) 80)) ∧
    (r.score ≤ -3 → r.recommendation = "strong_sell" ∧ r.action = "SELL" ∧
      r.confidence = round1 (min (((|r.score| : ℤ) : ℚ) / 5 * 100) 95)) ∧
    (-3 < r.score → r.score ≤ -1 → r.recommendation = "sell" ∧ r.action = "SELL" ∧
      r.confidence = round1 (min (((|r.score| : ℤ) : ℚ) / 3 * 100) 80)) ∧
    (-1 < r.score → r.score < 1 → r.recommendation = "hold" ∧ r.action = "HOLD" ∧
      r.confidence = 60) := by
  subst hr
  have hsc : (generate_recommendation tech trend volume risk sentiment).score
      = totalScore tech trend sentiment risk := rfl
  have hrec :
      (generate_recommendation tech trend volume risk sentiment).recommendation
        = (tierOf (totalScore tech trend sentiment risk)).1 := rfl
  have hact :
      (generate_recommendation tech trend volume risk sentiment).action
        = (tierOf (totalScore tech trend sentiment risk)).2.1 := rfl
  have hconf :
      (generate_recommendation tech trend volume risk sentiment).confidence
        = round1 (tierOf (totalScore tech trend sentiment risk)).2.2 := rfl
  rw [hsc, hrec, hact, hconf]
  set s := totalScore tech trend sentiment risk with hs
  refine ⟨fun h3 => ?_, fun h1 h3 => ?_, fun hm3 => ?_, fun hm3 hm1 => ?_,
    fun hg hl => ?_⟩
  · rw [tierOf, if_pos h3]
    exact ⟨rfl, rfl, rfl⟩
  · rw [tierOf, if_neg (by omega), if_pos h1]
    exact ⟨rfl, rfl, rfl⟩
  · rw [tierOf, if_neg (by omega), if_neg (by omega), if_pos hm3]
    exact ⟨rfl, rfl, rfl⟩
  · rw [tierOf, if_neg (by omega), if_neg (by omega), if_neg (by omega),
      if_pos hm1]
    exact ⟨rfl, rfl, rfl⟩
  · rw [tierOf, if_neg (by omega), if_neg (by omega), if_neg (by omega),
      if_neg (by omega)]
    refine ⟨rfl, rfl, ?_⟩
    rw [round1, round_eq]
    norm_num

/-- Witness for C2's amended theorem: a concrete score-5 input lands in the
strong-buy tier with the rounded capped confidence. -/
theorem tier_action_confidence_witness :
    (generate_recommendation (some ⟨20, 1, 0⟩) "bullish" "normal" "low"
        "neutral").recommendation = "strong_buy" ∧
    (generate_recommendation (some ⟨20, 1, 0⟩) "bullish" "normal" "low"
        "neutral").action = "BUY" ∧
    (generate_recommendation (some ⟨20, 1, 0⟩) "bullish" "normal" "low"
        "neutral").confidence
      = round1 (min (((generate_recommendation (some ⟨20, 1, 0⟩) "bullish"
          "normal" "low" "neutral").score : ℚ) / 5 * 100) 95) :=
  (tier_action_confidence (some ⟨20, 1, 0⟩) "bullish" "normal" "low" "neutral"
    _ rfl).1 (by decide)

/-- Counterexample to C2 as stated: at total score 1 the stored confidence is
`round(min(1/3·100, 80), 1) = 33.3`, not the claim's exact `min(1/3·100, 80)
= 33.333…`. -/
theorem tier_confidence_counterexample :
    (generate_recommendation (some ⟨50, 1, 0⟩) "sideways" "normal" "low"
        "neutral").score = 1 ∧
    (generate_recommendation (some ⟨50, 1, 0⟩) "sideways" "normal" "low"
        "neutral").confidence = 333 / 10 ∧
    (333 / 10 : ℚ) ≠ min ((1 : ℚ) / 3 * 100) 80 := by
  refine ⟨by decide, ?_, by norm_num [min_def]⟩
  show round1 (tierOf (totalScore (some ⟨50, 1, 0⟩) "sideways" "neutral"
    "low")).2.2 = 333 / 10
  rw [show totalScore (some ⟨50, 1, 0⟩) "sideways" "neutral" "low" = 1 from by
    decide]
  rw [round1, round_eq]
  norm_num [tierOf, min_def]

/-- C3 (amended): any exception raised inside `_generate_recommendation` is
caught and converted into a returned HOLD dict with confidence 50 — not the
claim's confidence 0 — carrying the error message; nothing propagates to the
caller. -/
theorem recommendation_fail_soft (body : Except String Recommendation)
    (e : String) (h : body = .error e) :
    generateRecommendationResult body = .inr (recommendationFallback e) ∧
    (recommendationFallback e).recommendation = "hold" ∧
    (recommendationFallback e).action = "HOLD" ∧
    (recommendationFallback e).confidence = 50 ∧
    (recommendationFallback e).error = e := by
  subst h
  exact ⟨rfl, rfl, rfl, rfl, rfl⟩

/-- Witness for C3's amended theorem at a concrete raised exception. -/
theorem recommendation_fail_soft_witness :
    generateRecommendationResult (Except.error "division by zero")
        = .inr (recommendationFallback "division by zero") ∧
    (recommendationFallback "division by zero").recommendation = "hold" ∧
    (recommendationFallback "division by zero").action = "HOLD" ∧
    (recommendationFallback "division by zero").confidence = 50 ∧
    (recommendationFallback "division by zero").error = "division by zero" :=
  recommendation_fail_soft (Except.error "division by zero") "division by zero"
    rfl

/-- Counterexample to C3 as stated: the error path yields confidence 50,
which is not the claimed 0. -/
theorem recommendation_fail_soft_counterexample :
    generateRecommendationResult (Except.error "boom")
        = Sum.inr (recommendationFallback "boom") ∧
    (recommendationFallback "boom").action = "HOLD" ∧
    (recommendationFallback "boom").confidence = 50 ∧
    (recommendationFallback "boom").confidence ≠ 0 := by
  refine ⟨rfl, rfl, rfl, ?_⟩
  show (50 : ℚ) ≠ 0
  norm_num

/-- The average gain over the final window is non-negative. -/
theorem avgGain_nonneg (prices : List ℚ) : 0 ≤ avgGain prices := by
  apply div_nonneg _ (by norm_num)
  apply List.sum_nonneg
  intro x hx
  obtain ⟨d, _, rfl⟩ := List.mem_map.mp hx
  split_ifs with h
  · linarith
  · exact le_refl 0

/-- The average loss over the final window is non-negative. -/
theorem avgLoss_nonneg (prices : List ℚ) : 0 ≤ avgLoss prices := by
  apply div_nonneg _ (by norm_num)
  apply List.sum_nonneg
  intro x hx
  obtain ⟨d, _, rfl⟩ := List.mem_map.mp hx
  split_ifs with h
  · linarith
  · exact le_refl 0

/-- C5: the computed RSI always lies in `[0, 100]`, and a series of fewer
than 15 bars yields exactly `50.0`. -/
theorem rsi_in_range (prices : List ℚ) :
    0 ≤ calculate_rsi prices ∧ calculate_rsi prices ≤ 100 ∧
      (prices.length < 15 → calculate_rsi prices = 50) := by
  have hg := avgGain_nonneg prices
  have hl := avgLoss_nonneg prices
  unfold calculate_rsi
  split_ifs with h1 h2 h3
  · exact ⟨by norm_num, by norm_num, fun _ => rfl⟩
  · exact ⟨by norm_num, by norm_num, fun h => absurd h h1⟩
  · exact ⟨by norm_num, by norm_num, fun h => absurd h h1⟩
  · have hl0 : 0 < avgLoss prices := lt_of_le_of_ne hl (Ne.symm h2)
    have hrs : 0 ≤ avgGain prices / avgLoss prices := div_nonneg hg hl0.le
    have hpos : (0 : ℚ) < 1 + avgGain prices / avgLoss prices := by linarith
    have hq : 0 < 100 / (1 + avgGain prices / avgLoss prices) :=
      div_pos (by norm_num) hpos
    have hqq : 100 / (1 + avgGain prices / avgLoss prices) ≤ 100 := by
      rw [div_le_iff₀ hpos]
      nlinarith
    exact ⟨by linarith, by linarith, fun h => absurd h h1⟩

/-- Witness for C5 at a concrete 2-bar series. -/
theorem rsi_in_range_witness :
    0 ≤ calculate_rsi [1, 2] ∧ calculate_rsi [1, 2] ≤ 100 ∧
      calculate_rsi [1, 2] = 50 :=
  ⟨(rsi_in_range [1, 2]).1, (rsi_in_range [1, 2]).2.1,
   (rsi_in_range [1, 2]).2.2 (by decide)⟩

/-- Counterexample to C6 as stated: fifteen strictly increasing closes have
zero average loss, and the computed RSI is `100` (pandas `gain/0 = inf`
drives `100 - 100/(1+inf)` to `100`), not the claimed neutral `50`. -/
theorem rsi_zero_loss_counterexample :
    15 ≤ incPrices15.length ∧ avgLoss incPrices15 = 0 ∧
      calculate_rsi incPrices15 = 100 ∧ (100 : ℚ) ≠ 50 := by
  refine ⟨by decide, ?_, ?_, by norm_num⟩
  · norm_num [avgLoss, losses14, lastN, diffs, incPrices15]
  · norm_num [calculate_rsi, avgLoss, avgGain, losses14, gains14, lastN, diffs,
      incPrices15]

/-- C6 (amended): with at least 15 bars and zero average loss, the RSI is
`50.0` only when the average gain is also zero (flat closes, `0/0 = NaN`);
with any positive gain it is `100.0` instead. -/
theorem rsi_zero_loss_default (prices : List ℚ) (h15 : 15 ≤ prices.length)
    (hl : avgLoss prices = 0) :
    calculate_rsi prices = if avgGain prices = 0 then 50 else 100 := by
  unfold calculate_rsi
  rw [if_neg (by omega), if_pos hl]

/-- Witness for C6's amended theorem at the increasing 15-bar series. -/
theorem rsi_zero_loss_default_witness :
    calculate_rsi incPrices15 = if avgGain incPrices15 = 0 then 50 else 100 :=
  rsi_zero_loss_default incPrices15 (by decide)
    (by norm_num [avgLoss, losses14, lastN, diffs, incPrices15])

/-- Counterexample to C4 as stated: a cache holding one row 30 days old,
queried with a 5-day lookback window, makes both the cache check and the
`except` fallback see an empty query result, so a failed fetch raises the
no-data error even though the cache holds data for the symbol — refuting
both the degraded-success clause and the "fails only when the cache is
empty" clause. -/
theorem get_historical_data_stale_cache_counterexample :
    ([((-30 : Int), sampleRow)] : List (Int × HistRow)) ≠ [] ∧
    windowed_db_query [((-30 : Int), sampleRow)] (-5) = [] ∧
    get_historical_data false [((-30 : Int), sampleRow)] (-5) (some 30)
        (Except.error "timeout")
      = .error ("No historical data available: " ++ "timeout") := by
  refine ⟨by simp, rfl, rfl⟩

/-- C4 (amended): with `forceRefresh = false`, the retrieval contract holds
for the *windowed* cache query (rows within the lookback window), not the
whole cache: a non-empty windowed query with a last date fresher than one
day is returned without invoking the fetch source; a failed fetch with a
non-empty windowed query degrades to those rows; and the no-data error is
raised exactly when the fetch fails and the windowed query is empty — which
can happen while the cache still holds older rows for the symbol. -/
theorem get_historical_data_window_contract (cache : List (Int × HistRow))
    (cutoff : Int) (age : Option Int)
    (fetch : Except String (List (Int × HistRow))) (e : String) :
    (windowed_db_query cache cutoff ≠ [] → isFreshAge age = true →
      get_historical_data false cache cutoff age fetch
        = .ok (windowed_db_query cache cutoff, false)) ∧
    (fetch = .error e → windowed_db_query cache cutoff ≠ [] →
      ∃ invoked, get_historical_data false cache cutoff age fetch
        = .ok (windowed_db_query cache cutoff, invoked)) ∧
    (fetch = .error e → windowed_db_query cache cutoff = [] →
      get_historical_data false cache cutoff age fetch
        = .error ("No historical data available: " ++ e)) := by
  refine ⟨fun hne hfresh => ?_, fun hf hne => ?_, fun hf hemp => ?_⟩
  · unfold get_historical_data
    rw [if_pos ⟨rfl, hne, hfresh⟩]
  · subst hf
    unfold get_historical_data
    by_cases hcond : false = false ∧ windowed_db_query cache cutoff ≠ [] ∧
        isFreshAge age = true
    · rw [if_pos hcond]
      exact ⟨false, rfl⟩
    · rw [if_neg hcond]
      refine ⟨true, ?_⟩
      show (if windowed_db_query cache cutoff ≠ [] then
          Except.ok (windowed_db_query cache cutoff, true)
        else Except.error ("No historical data available: " ++ e)) = _
      rw [if_pos hne]
  · subst hf
    unfold get_historical_data
    rw [if_neg (by simp [hemp])]
    show (if windowed_db_query cache cutoff ≠ [] then
        Except.ok (windowed_db_query cache cutoff, true)
      else Except.error ("No historical data available: " ++ e)) = _
    rw [if_neg (by simp [hemp])]

/-- Witness for C4's amended theorem in its three scenarios at concrete
cache states (a fresh in-window row, a stale in-window row with a failing
fetch, and an empty windowed query with a failing fetch). -/
theorem get_historical_data_window_contract_witness :
    get_historical_data false [((0 : Int), sampleRow)] (-5) (some 0)
        (Except.error "timeout")
      = .ok (windowed_db_query [((0 : Int), sampleRow)] (-5), false) ∧
    (∃ invoked,
      get_historical_data false [((0 : Int), sampleRow)] (-5) (some 5)
          (Except.error "timeout")
        = .ok (windowed_db_query [((0 : Int), sampleRow)] (-5), invoked)) ∧
    get_historical_data false [] (-5) (some 5) (Except.error "timeout")
        = .error ("No historical data available: " ++ "timeout") :=
  ⟨(get_historical_data_window_contract [((0 : Int), sampleRow)] (-5) (some 0)
      (Except.error "timeout") "timeout").1 (by decide) (by decide),
   (get_historical_data_window_contract [((0 : Int), sampleRow)] (-5) (some 5)
      (Except.error "timeout") "timeout").2.1 rfl (by decide),
   (get_historical_data_window_contract [] (-5) (some 5)
      (Except.error "timeout") "timeout").2.2 rfl rfl⟩

/-- Counterexample to C7 as stated: the summary built for an empty article
list has no `sentiment_score` key at all (the claimed `5.0` default exists
only in `get_stock_news_sentiment`'s no-articles response). -/
theorem sentiment_empty_counterexample :
    ((analyze_news_sentiment []).1).sentiment_score = none ∧
    ((analyze_news_sentiment []).1).overall_sentiment = "neutral" ∧
    ((analyze_news_sentiment []).1).confidence = 0 :=
  ⟨rfl, rfl, rfl⟩

/-- C7 (amended): on an empty article list `analyze_news_sentiment` returns
neutral sentiment, zero counts and confidence 0 but omits the
`sentiment_score` (and `articles_analyzed`) keys; the `5.0` default is
produced only by the `get_stock_news_sentiment` wrapper when no articles are
found. -/
theorem sentiment_empty_defaults (s : String) :
    (analyze_news_sentiment []).1
        = { overall_sentiment := "neutral", positive_count := 0,
            negative_count := 0, neutral_count := 0, confidence := 0,
            articles_analyzed := none, sentiment_score := none } ∧
    (analyze_news_sentiment []).2 = [] ∧
    (noNewsResponse s).overall_sentiment = "neutral" ∧
    (noNewsResponse s).sentiment_score = 5 :=
  ⟨rfl, rfl, rfl, rfl⟩

/-- Counterexample to C8 as stated: on an empty series the technical
analysis returns the `{'error': ...}` dict, not an indicator set. -/
theorem technical_analysis_empty_counterexample :
    (technical_analysis (fun q => q) [] 100).isErr = true := rfl

/-- C8 (amended): on an empty series `_technical_analysis` never raises, but
it returns the `{'error': ...}` dict (the internal last-price lookup raises
and the outer handler catches it) rather than the documented neutral
defaults; the neutral defaults are only produced for non-empty series
shorter than the indicator windows. -/
theorem technical_analysis_empty (sqrtFn : ℚ → ℚ) (p : ℚ) :
    technical_analysis sqrtFn [] p
      = TechResult.err ("Technical analysis error: " ++ indexErrMsg) := rfl

/-- Closed form of the fold of upserts: the prior rows whose keys are not
re-upserted, in order, followed by the rows the DataFrame itself produces. -/
theorem store_closed_form (s : String) (df : List (Int × HistRow)) :
    ∀ t : HistTable,
      store_historical_data t s df
        = t.filter (fun p => decide (p.1 ∉ df.map (fun dr => (s, dr.1))))
            ++ store_historical_data [] s df := by
  induction df with
  | nil =>
    intro t
    simp [store_historical_data]
  | cons dr rest ih =>
    intro t
    have h1 : store_historical_data t s (dr :: rest)
        = store_historical_data (upsertRow t (s, dr.1) dr.2) s rest := rfl
    have h2 : store_historical_data ([] : HistTable) s (dr :: rest)
        = store_historical_data (upsertRow [] (s, dr.1) dr.2) s rest := rfl
    rw [h1, h2, ih (upsertRow t (s, dr.1) dr.2), ih (upsertRow [] (s, dr.1) dr.2)]
    rw [upsertRow, upsertRow]
    simp only [List.filter_append, List.filter_filter, List.nil_append,
      List.filter_nil, List.append_assoc]
    congr 1
    apply List.filter_congr
    intro p _
    by_cases hk : p.1 = (s, dr.1) <;>
      by_cases hm : p.1 ∈ rest.map (fun dr => (s, dr.1)) <;>
      simp [hk, hm, List.mem_cons]

/-- Every row produced by a fold of upserts either has a key the DataFrame
wrote or was already in the table. -/
theorem mem_store_historical_data (s : String) (df : List (Int × HistRow)) :
    ∀ (t : HistTable) (p : (String × Int) × HistRow),
      p ∈ store_historical_data t s df →
        p.1 ∈ df.map (fun dr => (s, dr.1)) ∨ p ∈ t := by
  induction df with
  | nil =>
    intro t p hp
    exact Or.inr hp
  | cons dr rest ih =>
    intro t p hp
    rcases ih (upsertRow t (s, dr.1) dr.2) p hp with h | h
    · exact Or.inl (List.mem_cons_of_mem _ h)
    · rcases List.mem_append.mp h with h1 | h2
      · exact Or.inr (List.mem_of_mem_filter h1)
      · have hpk : p = ((s, dr.1), dr.2) := by simpa using h2
        refine Or.inl ?_
        rw [hpk]
        exact List.mem_cons_self _ _

/-- Upserting one row preserves key uniqueness. -/
theorem upsertRow_keys_nodup (t : HistTable) (k : String × Int) (r : HistRow)
    (h : (t.map Prod.fst).Nodup) :
    ((upsertRow t k r).map Prod.fst).Nodup := by
  rw [upsertRow, List.map_append]
  rw [List.nodup_append]
  have hsub : List.Sublist (t.filter (fun p => decide (p.1 ≠ k))) t :=
    List.filter_sublist t
  refine ⟨List.Nodup.sublist (hsub.map Prod.fst) h, by simp, ?_⟩
  intro a ha hb
  simp only [List.map_cons, List.map_nil, List.mem_singleton] at hb
  obtain ⟨p, hpf, hpk⟩ := List.mem_map.mp ha
  have hne : p.1 ≠ k := of_decide_eq_true (List.mem_filter.mp hpf).2
  exact hne (hpk.trans hb)

/-- A fold of upserts preserves key uniqueness. -/
theorem store_keys_nodup (s : String) (df : List (Int × HistRow)) :
    ∀ t : HistTable, (t.map Prod.fst).Nodup →
      ((store_historical_data t s df).map Prod.fst).Nodup := by
  induction df with
  | nil =>
    intro t h
    exact h
  | cons dr rest ih =>
    intro t h
    exact ih _ (upsertRow_keys_nodup t _ _ h)

/-- Any sequence of stores starting from the empty table has no two rows
with the same `(symbol, date)` key. -/
theorem storeAll_keys_nodup (ops : List (String × List (Int × HistRow))) :
    ((storeAll ops).map Prod.fst).Nodup := by
  suffices h : ∀ t : HistTable, (t.map Prod.fst).Nodup →
      (((ops.foldl (fun t op => store_historical_data t op.1 op.2) t)).map
        Prod.fst).Nodup by
    exact h [] (by simp)
  induction ops with
  | nil =>
    intro t h
    exact h
  | cons op rest ih =>
    intro t h
    exact ih _ (store_keys_nodup op.1 op.2 t h)

/-- C9: the historical-data upsert is idempotent — storing the same
DataFrame twice leaves the table exactly as storing it once — and after any
sequence of stores on a fresh table, the rows of any one symbol never
contain two entries with the same date. -/
theorem historical_upsert_contract (t : HistTable) (s : String)
    (df : List (Int × HistRow))
    (ops : List (String × List (Int × HistRow))) (sym : String) :
    store_historical_data (store_historical_data t s df) s df
        = store_historical_data t s df ∧
      (((storeAll ops).filter (fun p => decide (p.1.1 = sym))).map
          (fun p => p.1.2)).Nodup := by
  constructor
  · rw [store_closed_form s df (store_historical_data t s df),
      store_closed_form s df t]
    rw [List.filter_append]
    have h1 : ((t.filter (fun p => decide (p.1 ∉ df.map (fun dr => (s, dr.1))))).filter
          (fun p => decide (p.1 ∉ df.map (fun dr => (s, dr.1)))))
        = t.filter (fun p => decide (p.1 ∉ df.map (fun dr => (s, dr.1)))) := by
      rw [List.filter_filter]
      apply List.filter_congr
      intro p _
      simp
    have h2 : (store_historical_data [] s df).filter
          (fun p => decide (p.1 ∉ df.map (fun dr => (s, dr.1)))) = [] := by
      rw [List.filter_eq_nil_iff]
      intro p hp
      rcases mem_store_historical_data s df [] p hp with h | h
      · simp [h]
      · exact absurd h (List.not_mem_nil p)
    rw [h1, h2, List.append_nil]
  · have hk := storeAll_keys_nodup ops
    have hnd : (((storeAll ops).filter
          (fun p => decide (p.1.1 = sym))).map Prod.fst).Nodup :=
      hk.sublist ((List.filter_sublist (storeAll ops)).map Prod.fst)
    have hcomp : ((storeAll ops).filter (fun p => decide (p.1.1 = sym))).map
          (fun p => p.1.2)
        = (((storeAll ops).filter (fun p => decide (p.1.1 = sym))).map
            Prod.fst).map Prod.snd := by
      rw [List.map_map]
      rfl
    rw [hcomp]
    apply List.Nodup.map_on ?_ hnd
    intro x hx y hy hxy
    obtain ⟨p, hpf, hpx⟩ := List.mem_map.mp hx
    obtain ⟨q, hqf, hqy⟩ := List.mem_map.mp hy
    have hpx1 : x.1 = sym := by
      have hs1 : p.1.1 = sym := of_decide_eq_true (List.mem_filter.mp hpf).2
      rw [← hpx]
      exact hs1
    have hqy1 : y.1 = sym := by
      have hs2 : q.1.1 = sym := of_decide_eq_true (List.mem_filter.mp hqf).2
      rw [← hqy]
      exact hs2
    cases x
    cases y
    simp_all

/-- The label the loop writes equals the sign of the per-article keyword
score. -/
theorem articleLabel_eq_sign (a : Article) :
    articleLabel a
      = (if 0 < keywordScore a then "positive"
         else if keywordScore a < 0 then "negative" else "neutral") := by
  unfold articleLabel keywordScore
  split_ifs <;> first | rfl | omega

/-- C10: sentiment aggregation rewrites each input article's `sentiment`
field to the sign of that article's keyword score and leaves every other
field (and the list length) unchanged — the input list is mutated, not
read-only. -/
theorem sentiment_mutation (arts : List Article) (i : Nat) :
    ((analyze_news_sentiment arts).2).length = arts.length ∧
    ((analyze_news_sentiment arts).2)[i]?
      = arts[i]?.map (fun a =>
          { a with sentiment :=
              if 0 < keywordScore a then "positive"
              else if keywordScore a < 0 then "negative" else "neutral" }) := by
  by_cases harts : arts = []
  · subst harts
    exact ⟨rfl, rfl⟩
  · have h2 : (analyze_news_sentiment arts).2
        = arts.map (fun a => { a with sentiment := articleLabel a }) := by
      unfold analyze_news_sentiment
      rw [if_neg harts]
    constructor
    · rw [h2, List.length_map]
    · rw [h2, List.getElem?_map]
      have hfun : (fun a => { a with sentiment := articleLabel a })
          = (fun a : Article =>
              { a with sentiment :=
                  if 0 < keywordScore a then "positive"
                  else if keywordScore a < 0 then "negative"
                  else "neutral" }) := by
        funext a
        rw [articleLabel_eq_sign]
      rw [hfun]

end MarketAnalyst
